import Mathlib

/-!
Shallow embedding of `src/docker/test-environment/health_server.py`
(repository `dars2k/environment-manager`).

The server is a single `BaseHTTPRequestHandler` subclass with a `do_GET`
and a `do_POST` method dispatching on `self.path`, plus a module-level
`server_start_time` captured once at process start.  We embed:

* Python values produced by `json.loads` as the inductive `Json`
  (Python `dict` keeps insertion order and later duplicate keys
  overwrite earlier ones, mirrored by `objInsert`);
* `json.loads` itself as the fuel-based recursive parser `json_loads`
  (faithful to the JSON grammar accepted by Python's `json` module for
  the constructs this server can receive: objects, arrays, strings with
  escapes, integers and decimal fractions, `true`/`false`/`null`,
  whitespace between tokens; exponent notation in number literals is
  outside the modelled grammar);
* Python `str()` of such a value (used by the f-string
  `f'Upgrade to version {data.get("version", "unknown")} initiated'`)
  as `pyStr` / `pyRepr` (floats are modelled as exact decimal literals,
  rendered the way CPython renders short decimals);
* `int(...)` on an optional header string as `pyIntOfStr` (raises
  `TypeError` on `None`, `ValueError` on a non-numeric string);
* `self.rfile.read(n)` as `pyRead`;
* wall-clock values (`time.time()`, `datetime.now().isoformat()`) as an
  explicit `Clock` argument with rational epoch seconds;
* the handler methods as `do_GET` / `do_POST`, returning either a
  `Response` or the unhandled Python exception that escapes the method.
-/

namespace HealthServer

/-- The double-quote character (written via its code point so that no
string or character literal in this file contains a quote). -/
def quoteChar : Char := Char.ofNat 34

/-- The backslash character. -/
def backslashChar : Char := Char.ofNat 92

/-- The opening curly brace character. -/
def braceOpen : Char := Char.ofNat 123

/-- The closing curly brace character. -/
def braceClose : Char := Char.ofNat 125

/-- The apostrophe (single quote) character. -/
def apostChar : Char := Char.ofNat 39

/-- Values produced by Python `json.loads`, together with the values the
handler itself puts into response dictionaries.  A float is represented
by the exact decimal it denotes: `num m s` stands for `m / 10 ^ s`, with
the fractional digits already normalised (no trailing zeros; `s = 0`
encodes an integral float such as `1.0`). -/
inductive Json where
  | null
  | bool (b : Bool)
  | int (n : Int)
  | num (m : Int) (s : Nat)
  | str (s : String)
  | arr (xs : List Json)
  | obj (kvs : List (String × Json))
deriving Repr

/-- Hexadecimal digit for Python `repr` escapes (lower case, as CPython). -/
def hexChar (n : Nat) : Char :=
  if n < 10 then Char.ofNat (48 + n) else Char.ofNat (87 + n)

/-- Python `repr` escaping of one character of a string, given the quote
character chosen for the whole string: backslash and the quote are
escaped, `\n`, `\r`, `\t` get their two-character escapes, other control
characters become `\xHH`, everything else is kept. -/
def pyReprCharEsc (q : Char) (c : Char) : List Char :=
  if c = backslashChar then [backslashChar, backslashChar]
  else if c = q then [backslashChar, q]
  else if c.toNat = 10 then [backslashChar, Char.ofNat 110]
  else if c.toNat = 13 then [backslashChar, Char.ofNat 114]
  else if c.toNat = 9 then [backslashChar, Char.ofNat 116]
  else if c.toNat < 32 || c.toNat = 127 then
    [backslashChar, Char.ofNat 120, hexChar (c.toNat / 16), hexChar (c.toNat % 16)]
  else [c]

/-- Python `repr` of a `str`: single-quoted, except that a string
containing an apostrophe but no double quote is double-quoted. -/
def pyReprString (s : String) : String :=
  let q : Char :=
    if s.data.contains apostChar && !(s.data.contains quoteChar) then quoteChar
    else apostChar
  String.mk (q :: (s.data.map (pyReprCharEsc q)).flatten ++ [q])

/-- Rendering of the float `m / 10 ^ s` the way CPython's `str` renders a
short decimal: sign, integer part, a dot, and the `s` fractional digits
(with `.0` when the float is integral). -/
def pyNumRender (m : Int) (s : Nat) : String :=
  let sign : String := if m < 0 then "-" else ""
  let a := m.natAbs
  let ip := a / 10 ^ s
  let fp := a % 10 ^ s
  let fpStr := toString fp
  let fpPad := String.mk (List.replicate (s - fpStr.length) (Char.ofNat 48)) ++ fpStr
  if s = 0 then sign ++ toString ip ++ ".0"
  else sign ++ toString ip ++ "." ++ fpPad

mutual
/-- Python `repr` of a value decoded from JSON (`None`, `True`, `False`,
ints, floats, quoted strings, `[...]` lists and `{...}` dicts with
comma-space separators and colon-space between key and value). -/
def pyRepr : Json → String
  | .null => "None"
  | .bool b => if b then "True" else "False"
  | .int n => toString n
  | .num m s => pyNumRender m s
  | .str s => pyReprString s
  | .arr xs => "[" ++ String.intercalate ", " (pyReprList xs) ++ "]"
  | .obj kvs => String.mk [braceOpen] ++ String.intercalate ", " (pyReprKVs kvs) ++ String.mk [braceClose]

/-- `repr` of the elements of a decoded list, in order. -/
def pyReprList : List Json → List String
  | [] => []
  | x :: xs => pyRepr x :: pyReprList xs

/-- `repr` of the entries of a decoded dict, in order. -/
def pyReprKVs : List (String × Json) → List String
  | [] => []
  | (k, v) :: xs => (pyReprString k ++ ": " ++ pyRepr v) :: pyReprKVs xs
end

/-- Python `str()` of a value decoded from JSON: the string itself for a
`str`, `repr` for everything else (for `None`, booleans, numbers, lists
and dicts, `str` and `repr` agree in CPython). -/
def pyStr (j : Json) : String :=
  match j with
  | .str s => s
  | j => pyRepr j

/-- JSON whitespace (space, tab, line feed, carriage return), as skipped
by Python's `json` scanner. -/
def isJsonWs (c : Char) : Bool :=
  c = ' ' || c.toNat = 9 || c.toNat = 10 || c.toNat = 13

/-- Drop leading JSON whitespace. -/
def skipWs : List Char → List Char
  | [] => []
  | c :: cs => if isJsonWs c then skipWs cs else c :: cs

/-- Value of a hexadecimal digit character, if it is one. -/
def hexVal (c : Char) : Option Nat :=
  if 48 ≤ c.toNat && c.toNat ≤ 57 then some (c.toNat - 48)
  else if 97 ≤ c.toNat && c.toNat ≤ 102 then some (c.toNat - 87)
  else if 65 ≤ c.toNat && c.toNat ≤ 70 then some (c.toNat - 55)
  else none

/-- Single-character JSON string escapes. -/
def escChar (e : Char) : Option Char :=
  if e = quoteChar then some quoteChar
  else if e = backslashChar then some backslashChar
  else if e = '/' then some '/'
  else if e.toNat = 98 then some (Char.ofNat 8)
  else if e.toNat = 102 then some (Char.ofNat 12)
  else if e.toNat = 110 then some (Char.ofNat 10)
  else if e.toNat = 114 then some (Char.ofNat 13)
  else if e.toNat = 116 then some (Char.ofNat 9)
  else none

/-- Scan a JSON string body (the opening quote already consumed),
returning the decoded characters and the remaining input.  Python's
strict scanner rejects raw control characters below 0x20.  `\uXXXX`
escapes decode the code point.  The fuel argument bounds recursion depth
and is always called with more fuel than input characters. -/
def parseStringBody : Nat → List Char → Option (List Char × List Char)
  | 0, _ => none
  | fuel + 1, cs =>
    match cs with
    | [] => none
    | c :: rest =>
      if c = quoteChar then some ([], rest)
      else if c = backslashChar then
        match rest with
        | [] => none
        | e :: rest2 =>
          if e.toNat = 117 then
            match rest2 with
            | a :: b :: c2 :: d :: rest3 =>
              match hexVal a, hexVal b, hexVal c2, hexVal d with
              | some ha, some hb, some hc, some hd =>
                (parseStringBody fuel rest3).map
                  (fun p => (Char.ofNat (((ha * 16 + hb) * 16 + hc) * 16 + hd) :: p.1, p.2))
              | _, _, _, _ => none
            | _ => none
          else
            match escChar e with
            | some ch => (parseStringBody fuel rest2).map (fun p => (ch :: p.1, p.2))
            | none => none
      else if c.toNat < 32 then none
      else (parseStringBody fuel rest).map (fun p => (c :: p.1, p.2))

/-- Take a maximal run of decimal digits. -/
def takeDigits : List Char → List Char × List Char
  | [] => ([], [])
  | c :: cs =>
    if c.isDigit then
      let p := takeDigits cs
      (c :: p.1, p.2)
    else ([], c :: cs)

/-- Numeric value of a run of decimal digit characters. -/
def natOfDigits (ds : List Char) : Nat :=
  ds.foldl (fun acc c => acc * 10 + (c.toNat - 48)) 0

/-- Drop trailing zero digits (used to normalise a float's fraction). -/
def stripTrailingZeros (ds : List Char) : List Char :=
  (ds.reverse.dropWhile (fun c => c.toNat = 48)).reverse

/-- Scan a JSON number starting at its first digit (`neg` records a
leading minus sign already consumed).  JSON forbids leading zeros.  An
integer literal decodes to a Python `int`, a literal with a fraction to
a float, whose decimal digits are normalised for `num`. -/
def parseNumberAux (neg : Bool) (cs : List Char) : Option (Json × List Char) :=
  let p := takeDigits cs
  let ip := p.1
  if ip.isEmpty then none
  else if ip.length > 1 && ip.head? = some (Char.ofNat 48) then none
  else
    let sgn : Int := if neg then -1 else 1
    match p.2 with
    | '.' :: rest2 =>
      let fq := takeDigits rest2
      if fq.1.isEmpty then none
      else
        let frac := stripTrailingZeros fq.1
        if frac.isEmpty then some (.num (sgn * natOfDigits ip) 0, fq.2)
        else some (.num (sgn * natOfDigits (ip ++ frac)) frac.length, fq.2)
    | rest => some (.int (sgn * natOfDigits ip), rest)

/-- Insert a key into a decoded object the way Python builds a `dict`
from JSON members: a repeated key overwrites the earlier value in place,
a new key is appended. -/
def objInsert (kvs : List (String × Json)) (k : String) (v : Json) :
    List (String × Json) :=
  if kvs.any (fun p => p.1 = k) then
    kvs.map (fun p => if p.1 = k then (k, v) else p)
  else kvs ++ [(k, v)]

mutual
/-- Scan one JSON value (whitespace allowed before it). -/
def parseValue : Nat → List Char → Option (Json × List Char)
  | 0, _ => none
  | fuel + 1, cs =>
    match skipWs cs with
    | [] => none
    | c :: rest =>
      if c = quoteChar then
        (parseStringBody (rest.length + 1) rest).map
          (fun p => (.str (String.mk p.1), p.2))
      else if c = braceOpen then parseObjectBody fuel rest
      else if c = '[' then parseArrayBody fuel rest
      else if c = 't' then
        match rest with
        | 'r' :: 'u' :: 'e' :: r => some (.bool true, r)
        | _ => none
      else if c = 'f' then
        match rest with
        | 'a' :: 'l' :: 's' :: 'e' :: r => some (.bool false, r)
        | _ => none
      else if c = 'n' then
        match rest with
        | 'u' :: 'l' :: 'l' :: r => some (.null, r)
        | _ => none
      else if c = '-' then parseNumberAux true rest
      else if c.isDigit then parseNumberAux false (c :: rest)
      else none

/-- Scan an array body (the `[` already consumed). -/
def parseArrayBody : Nat → List Char → Option (Json × List Char)
  | 0, _ => none
  | fuel + 1, cs =>
    match skipWs cs with
    | [] => none
    | c :: rest =>
      if c = ']' then some (.arr [], rest)
      else parseArrayItems fuel (c :: rest) []

/-- Scan the comma-separated elements of a non-empty array. -/
def parseArrayItems : Nat → List Char → List Json → Option (Json × List Char)
  | 0, _, _ => none
  | fuel + 1, cs, acc =>
    match parseValue fuel cs with
    | none => none
    | some (v, r) =>
      match skipWs r with
      | ',' :: r2 => parseArrayItems fuel r2 (acc ++ [v])
      | ']' :: r2 => some (.arr (acc ++ [v]), r2)
      | _ => none

/-- Scan an object body (the `{` already consumed). -/
def parseObjectBody : Nat → List Char → Option (Json × List Char)
  | 0, _ => none
  | fuel + 1, cs =>
    match skipWs cs with
    | [] => none
    | c :: rest =>
      if c = braceClose then some (.obj [], rest)
      else parseObjectItems fuel (c :: rest) []

/-- Scan the comma-separated members of a non-empty object. -/
def parseObjectItems : Nat → List Char → List (String × Json) →
    Option (Json × List Char)
  | 0, _, _ => none
  | fuel + 1, cs, acc =>
    match cs with
    | c :: rest =>
      if c = quoteChar then
        match parseStringBody (rest.length + 1) rest with
        | none => none
        | some (kcs, r) =>
          match skipWs r with
          | ':' :: r2 =>
            match parseValue fuel r2 with
            | none => none
            | some (v, r3) =>
              let acc2 := objInsert acc (String.mk kcs) v
              match skipWs r3 with
              | ',' :: r4 => parseObjectItems fuel (skipWs r4) acc2
              | c2 :: r4 =>
                if c2 = braceClose then some (.obj acc2, r4) else none
              | _ => none
          | _ => none
      else none
    | _ => none
end

/-- Model of Python `json.loads` on the decoded request body: scan one
value, then require only whitespace to remain.  `none` stands for a
raised `json.JSONDecodeError` (in particular on the empty string). -/
def json_loads (s : String) : Option Json :=
  match parseValue (2 * s.data.length + 4) s.data with
  | none => none
  | some (v, rest) => if (skipWs rest).isEmpty then some v else none

/-- Python whitespace stripped by `int(str)` (space, tab, line feed,
vertical tab, form feed, carriage return). -/
def isPyWs (c : Char) : Bool :=
  isJsonWs c || c.toNat = 11 || c.toNat = 12

/-- Model of Python `int(x)` where `x` is `self.headers[...]`, hence a
string or `None` (`None` is handled by the caller as a `TypeError`).
`int(str)` strips surrounding whitespace, then accepts an optional sign
followed by at least one digit, raising `ValueError` (here `none`)
otherwise.  (CPython additionally allows underscores between digits,
which no HTTP client sends in `Content-Length`.) -/
def pyIntOfStr (s : String) : Option Int :=
  let t := ((s.data.dropWhile isPyWs).reverse.dropWhile isPyWs).reverse
  match t with
  | '-' :: ds =>
    if !ds.isEmpty && ds.all Char.isDigit then some (-(natOfDigits ds : Int))
    else none
  | '+' :: ds =>
    if !ds.isEmpty && ds.all Char.isDigit then some (natOfDigits ds)
    else none
  | ds =>
    if !ds.isEmpty && ds.all Char.isDigit then some (natOfDigits ds)
    else none

/-- Model of `self.rfile.read(n)` followed by `.decode('utf-8')`: the
bytes available on the request stream are modelled as the decoded text,
and `read` takes the first `n` characters (a negative argument reads the
whole stream). -/
def pyRead (n : Int) (s : String) : String :=
  if n < 0 then s else String.mk (s.data.take n.toNat)

/-- A response body: either a dict serialised with `json.dumps`, or raw
text written directly (the 404 branch writes `b'Not Found'`). -/
inductive Body where
  | jsonBody (j : Json)
  | textBody (s : String)
deriving Repr

/-- An HTTP response as the handler emits it: the code passed to
`send_response`, the value of the single `Content-type` header, and the
body written to `wfile`. -/
structure Response where
  status : Nat
  contentType : String
  body : Body
deriving Repr

/-- The Python exceptions that can escape `do_POST`: `int(None)` raises
`TypeError`, `int` of a non-numeric string raises `ValueError`,
`json.loads` raises `json.JSONDecodeError`, and `.get` on a decoded
non-dict raises `AttributeError`. -/
inductive PyExn where
  | typeError
  | valueError
  | jsonDecodeError
  | attributeError
deriving Repr, DecidableEq

/-- Outcome of running a handler method: a response written to the
socket, or an exception propagating out of the method (in which case
`BaseHTTPRequestHandler` sends no response for this request). -/
inductive Outcome where
  | response (r : Response)
  | exn (e : PyExn)
deriving Repr

/-- The module-level state of the server: `server_start_time`, set once
in `__main__` from `time.time()` (epoch seconds, modelled as an exact
rational) and only ever read afterwards. -/
structure ServerState where
  server_start_time : ℚ
deriving Repr

/-- The wall clock at the moment a request is handled: `time.time()` as
epoch seconds and `datetime.now().isoformat()` as an opaque string. -/
structure Clock where
  epoch : ℚ
  iso : String
deriving Repr

/-- Python `int()` applied to a float (here an exact rational):
truncation toward zero. -/
def pyInt (q : ℚ) : Int :=
  if 0 ≤ q then ⌊q⌋ else ⌈q⌉

/-- State captured by `server_start_time = time.time()` in `__main__`. -/
def initialState (t : ℚ) : ServerState := ⟨t⟩

/-- `HealthCheckHandler.do_GET`, dispatching on `self.path`. -/
def do_GET (st : ServerState) (clock : Clock) (path : String) : Response :=
  if path = "/health" then
    { status := 200
      contentType := "application/json"
      body := .jsonBody (.obj [
        ("status", .str "healthy"),
        ("timestamp", .str clock.iso),
        ("service", .str "test-environment"),
        ("uptime", .int (pyInt (clock.epoch - st.server_start_time))),
        ("version", .str "1.0.0")]) }
  else if path = "/version" then
    { status := 200
      contentType := "application/json"
      body := .jsonBody (.obj [
        ("current", .str "1.0.0"),
        ("available", .arr [.str "1.0.1", .str "1.1.0", .str "2.0.0"])]) }
  else if path = "/info" then
    { status := 200
      contentType := "application/json"
      body := .jsonBody (.obj [
        ("hostname", .str "test-environment"),
        ("os", .str "Linux"),
        ("platform", .str "Docker"),
        ("environment", .str "test")]) }
  else if path = "/metrics" then
    { status := 200
      contentType := "application/json"
      body := .jsonBody (.obj [
        ("cpu_usage", .num 152 1),
        ("memory_usage", .num 457 1),
        ("disk_usage", .num 231 1),
        ("active_connections", .int 3)]) }
  else
    { status := 404, contentType := "text/plain", body := .textBody "Not Found" }

/-- A POST request as `do_POST` sees it: the path, the value of
`self.headers['Content-Length']` (`none` when the header is absent), and
the text available on `self.rfile`. -/
structure PostRequest where
  path : String
  contentLengthHeader : Option String
  rfileData : String
deriving Repr

/-- `HealthCheckHandler.do_POST`.  On `/upgrade` the method runs
`content_length = int(self.headers['Content-Length'])`,
`post_data = self.rfile.read(content_length)`,
`data = json.loads(post_data.decode('utf-8'))`, and interpolates
`data.get("version", "unknown")` into the message f-string; each of
those steps can raise, and a raised exception escapes the method. -/
def do_POST (_st : ServerState) (clock : Clock) (req : PostRequest) : Outcome :=
  if req.path = "/restart" then
    .response
      { status := 200
        contentType := "application/json"
        body := .jsonBody (.obj [
          ("status", .str "success"),
          ("message", .str "Service restart initiated"),
          ("timestamp", .str clock.iso)]) }
  else if req.path = "/upgrade" then
    match req.contentLengthHeader with
    | none => .exn .typeError
    | some h =>
      match pyIntOfStr h with
      | none => .exn .valueError
      | some content_length =>
        let post_data := pyRead content_length req.rfileData
        match json_loads post_data with
        | none => .exn .jsonDecodeError
        | some data =>
          match data with
          | .obj kvs =>
            let v : String :=
              match List.lookup "version" kvs with
              | some w => pyStr w
              | none => "unknown"
            .response
              { status := 200
                contentType := "application/json"
                body := .jsonBody (.obj [
                  ("status", .str "success"),
                  ("message", .str ("Upgrade to version " ++ v ++ " initiated")),
                  ("timestamp", .str clock.iso)]) }
          | _ => .exn .attributeError
  else
    .response
      { status := 404, contentType := "text/plain", body := .textBody "Not Found" }

/-- An incoming request of either method. -/
inductive Method where
  | GET
  | POST
deriving Repr, DecidableEq

/-- A request dispatched to the handler. -/
structure Request where
  method : Method
  path : String
  contentLengthHeader : Option String
  rfileData : String
deriving Repr

/-- One request handled against the server state: the outcome together
with the module state afterwards.  No statement in either handler method
assigns `server_start_time`, so the state is returned unchanged. -/
def handle (st : ServerState) (clock : Clock) (r : Request) :
    Outcome × ServerState :=
  (match r.method with
   | .GET => .response (do_GET st clock r.path)
   | .POST => do_POST st clock ⟨r.path, r.contentLengthHeader, r.rfileData⟩,
   st)

/-- The paths with a dedicated `do_GET` branch, in dispatch order. -/
def getPaths : List String := ["/health", "/version", "/info", "/metrics"]

/-- The paths with a dedicated `do_POST` branch, in dispatch order. -/
def postPaths : List String := ["/restart", "/upgrade"]

/-- The paths routed for a given method. -/
def routedPaths : Method → List String
  | .GET => getPaths
  | .POST => postPaths

/-- The response of the fall-through branch of both methods. -/
def notFoundResponse : Response :=
  { status := 404, contentType := "text/plain", body := .textBody "Not Found" }

/-- Field access into a JSON-dict response body. -/
def Response.jsonField (r : Response) (k : String) : Option Json :=
  match r.body with
  | .jsonBody (.obj kvs) => List.lookup k kvs
  | _ => none

/-- Decidable check that an outcome is a 200 response whose JSON body
has the given string under the key `message`. -/
def Outcome.isOkWithMessage (o : Outcome) (msg : String) : Bool :=
  match o with
  | .response r =>
    (r.status == 200) &&
      (match r.jsonField "message" with
       | some (.str s) => s == msg
       | _ => false)
  | .exn _ => false

/-- Decidable check that an outcome wrote any response at all. -/
def Outcome.isResponse (o : Outcome) : Bool :=
  match o with
  | .response _ => true
  | .exn _ => false

/-- Amended description of the `/upgrade` route, written from the spec's
words as far as the code bears them out: the interpolated version is the
`version` field of the parsed JSON object rendered with Python `str`,
and it defaults to `unknown` only when the parsed body is an object
without that field; a body that does not parse raises `JSONDecodeError`
and a parsed non-object raises `AttributeError`, so in those two cases
the handler writes no response at all (it does not answer 200). -/
def upgradeSpecOutcome (clock : Clock) (parsed : Option Json) : Outcome :=
  match parsed with
  | none => .exn .jsonDecodeError
  | some (.obj kvs) =>
    .response
      { status := 200
        contentType := "application/json"
        body := .jsonBody (.obj [
          ("status", .str "success"),
          ("message", .str ("Upgrade to version " ++
            (match List.lookup "version" kvs with
             | some w => pyStr w
             | none => "unknown") ++ " initiated")),
          ("timestamp", .str clock.iso)]) }
  | some _ => .exn .attributeError

/-- A concrete server state used to instantiate theorems. -/
def sampleState : ServerState := ⟨0⟩

/-- A concrete clock used to instantiate theorems. -/
def sampleClock : Clock := ⟨0, "2024-01-01T00:00:00"⟩

/-- Wrap a string in double quotes (JSON string syntax). -/
def jsonQuote (s : String) : String :=
  String.mk (quoteChar :: s.data ++ [quoteChar])

/-- The concrete request body pairing the key `version` with the JSON
string `v` inside one object. -/
def versionBody (v : String) : String :=
  String.mk (braceOpen :: (jsonQuote "version").data ++ ':' ::
    (jsonQuote v).data ++ [braceClose])

/-- The concrete request body pairing the key `version` with the JSON
integer `2` inside one object. -/
def versionInt2Body : String :=
  String.mk (braceOpen :: (jsonQuote "version").data ++ ':' :: ' ' :: '2' ::
    [braceClose])

/-! Theorems about the claims, in claim order. -/

/-- C1 (counterexample): a POST to `/upgrade` with `Content-Length: 0`
and an empty body is not answered with a 200 `unknown` message:
`json.loads` of the empty payload raises `JSONDecodeError` and the
method writes no response; with the `Content-Length` header missing,
`int(None)` raises `TypeError` before the body is even read. -/
theorem upgrade_empty_body_raises_not_200 :
    Outcome.isOkWithMessage
        (do_POST sampleState sampleClock ⟨"/upgrade", some "0", ""⟩)
        "Upgrade to version unknown initiated" = false ∧
    do_POST sampleState sampleClock ⟨"/upgrade", some "0", ""⟩ =
      .exn .jsonDecodeError ∧
    do_POST sampleState sampleClock ⟨"/upgrade", none, ""⟩ =
      .exn .typeError :=
  ⟨rfl, rfl, rfl⟩

/-- C1 (amended): a POST to `/upgrade` whose payload parses as a JSON
object without a `version` field is answered 200 with message
`Upgrade to version unknown initiated`; but an absent `Content-Length`
header raises `TypeError` and a zero `Content-Length` (empty payload)
raises `JSONDecodeError`, so in those cases no response is written. -/
theorem upgrade_object_without_version_unknown (st : ServerState) (c : Clock)
    (clh : String) (n : Int) (b b2 : String) (kvs : List (String × Json))
    (hn : pyIntOfStr clh = some n)
    (hj : json_loads (pyRead n b) = some (.obj kvs))
    (hv : List.lookup "version" kvs = none) :
    Outcome.isOkWithMessage (do_POST st c ⟨"/upgrade", some clh, b⟩)
        "Upgrade to version unknown initiated" = true ∧
    do_POST st c ⟨"/upgrade", none, b2⟩ = .exn .typeError ∧
    do_POST st c ⟨"/upgrade", some "0", b2⟩ = .exn .jsonDecodeError := by
  refine ⟨?_, rfl, rfl⟩
  simp only [do_POST]
  rw [if_neg (by decide), if_pos trivial, hn]
  simp only [hj, hv]
  rfl

/-- C1 (witness): instantiation at the body consisting of one empty
JSON object with matching `Content-Length`. -/
theorem upgrade_object_without_version_unknown_witness :
    pyIntOfStr "2" = some 2 ∧
    json_loads (pyRead 2 (String.mk [braceOpen, braceClose])) =
      some (.obj []) ∧
    List.lookup "version" ([] : List (String × Json)) = none ∧
    Outcome.isOkWithMessage
        (do_POST sampleState sampleClock
          ⟨"/upgrade", some "2", String.mk [braceOpen, braceClose]⟩)
        "Upgrade to version unknown initiated" = true :=
  ⟨rfl, rfl, rfl,
    (upgrade_object_without_version_unknown sampleState sampleClock
      "2" 2 (String.mk [braceOpen, braceClose]) "" [] rfl rfl rfl).1⟩

/-- C2 (counterexample): a POST to `/upgrade` whose body is the JSON
array `[]` is not answered at all, let alone with 200: `json.loads`
succeeds but `.get` on the resulting list raises `AttributeError`; a
body that is not JSON raises `JSONDecodeError`.  The claim that the
handler still responds 200 with version `unknown` in these cases is
false. -/
theorem upgrade_non_object_body_raises_not_200 :
    Outcome.isOkWithMessage
        (do_POST sampleState sampleClock ⟨"/upgrade", some "2", "[]"⟩)
        "Upgrade to version unknown initiated" = false ∧
    do_POST sampleState sampleClock ⟨"/upgrade", some "2", "[]"⟩ =
      .exn .attributeError ∧
    do_POST sampleState sampleClock ⟨"/upgrade", some "8", "not json"⟩ =
      .exn .jsonDecodeError :=
  ⟨rfl, rfl, rfl⟩

/-- C2 (amended): given a `Content-Length` header that `int()` accepts,
the `/upgrade` outcome is exactly `upgradeSpecOutcome` applied to the
parse of the bytes read: the `version` field's Python `str` rendering
(or `unknown` when the parsed object lacks the field) is interpolated
into a 200 response, while an unparseable payload raises
`JSONDecodeError` and a parsed non-object raises `AttributeError`
instead of producing any response. -/
theorem upgrade_outcome_characterisation (st : ServerState) (c : Clock)
    (clh : String) (n : Int) (b : String)
    (hn : pyIntOfStr clh = some n) :
    do_POST st c ⟨"/upgrade", some clh, b⟩ =
      upgradeSpecOutcome c (json_loads (pyRead n b)) := by
  simp only [do_POST]
  rw [if_neg (by decide), if_pos trivial, hn]
  cases hj : json_loads (pyRead n b) with
  | none =>
    simp only [hj]
    rfl
  | some d =>
    simp only [hj]
    cases d <;> rfl

/-- C2 (witness): instantiation at the JSON array body `[]`, where both
sides are the raised `AttributeError`. -/
theorem upgrade_outcome_characterisation_witness :
    pyIntOfStr "2" = some 2 ∧
    do_POST sampleState sampleClock ⟨"/upgrade", some "2", "[]"⟩ =
      upgradeSpecOutcome sampleClock (json_loads (pyRead 2 "[]")) :=
  ⟨rfl, upgrade_outcome_characterisation sampleState sampleClock "2" 2 "[]" rfl⟩

/-- C3: a request whose path has no dedicated branch for its method is
answered by the fall-through branch: status 404, `Content-type`
`text/plain`, body the plain text `Not Found`. -/
theorem unknown_path_not_found (st : ServerState) (c : Clock) (r : Request)
    (h : r.path ∉ routedPaths r.method) :
    (handle st c r).1 = .response notFoundResponse := by
  obtain ⟨m, p, clh, b⟩ := r
  cases m with
  | GET =>
    simp only [routedPaths, getPaths, List.mem_cons, List.not_mem_nil,
      or_false, not_or] at h
    obtain ⟨h1, h2, h3, h4⟩ := h
    simp [handle, do_GET, h1, h2, h3, h4, notFoundResponse]
  | POST =>
    simp only [routedPaths, postPaths, List.mem_cons, List.not_mem_nil,
      or_false, not_or] at h
    obtain ⟨h1, h2⟩ := h
    simp [handle, do_POST, h1, h2, notFoundResponse]

/-- C3 (witness): instantiation at a GET for the unrouted path `/nope`. -/
theorem unknown_path_not_found_witness :
    "/nope" ∉ routedPaths Method.GET ∧
    (handle sampleState sampleClock ⟨.GET, "/nope", none, ""⟩).1 =
      .response notFoundResponse :=
  ⟨by decide,
    unknown_path_not_found sampleState sampleClock ⟨.GET, "/nope", none, ""⟩
      (by decide)⟩

/-- C4: on `/health`, with the request handled no earlier than process
start, the response carries status `healthy`, version `1.0.0`, and an
`uptime` equal to the floor of the elapsed seconds, hence non-negative;
and between two requests the later one reports an uptime at least as
large. -/
theorem health_uptime_floor_monotone (st : ServerState) (c1 c2 : Clock)
    (h1 : st.server_start_time ≤ c1.epoch) (h2 : c1.epoch ≤ c2.epoch) :
    (do_GET st c1 "/health").status = 200 ∧
    (do_GET st c1 "/health").jsonField "status" = some (.str "healthy") ∧
    (do_GET st c1 "/health").jsonField "version" = some (.str "1.0.0") ∧
    (do_GET st c1 "/health").jsonField "uptime" =
      some (.int ⌊c1.epoch - st.server_start_time⌋) ∧
    0 ≤ ⌊c1.epoch - st.server_start_time⌋ ∧
    (do_GET st c2 "/health").jsonField "uptime" =
      some (.int ⌊c2.epoch - st.server_start_time⌋) ∧
    ⌊c1.epoch - st.server_start_time⌋ ≤ ⌊c2.epoch - st.server_start_time⌋ := by
  have e1 : pyInt (c1.epoch - st.server_start_time) =
      ⌊c1.epoch - st.server_start_time⌋ := by
    unfold pyInt
    rw [if_pos (by linarith)]
  have e2 : pyInt (c2.epoch - st.server_start_time) =
      ⌊c2.epoch - st.server_start_time⌋ := by
    unfold pyInt
    rw [if_pos (by linarith)]
  have u1 : (do_GET st c1 "/health").jsonField "uptime" =
      some (.int (pyInt (c1.epoch - st.server_start_time))) := rfl
  have u2 : (do_GET st c2 "/health").jsonField "uptime" =
      some (.int (pyInt (c2.epoch - st.server_start_time))) := rfl
  refine ⟨rfl, rfl, rfl, ?_, ?_, ?_, ?_⟩
  · rw [u1, e1]
  · exact Int.floor_nonneg.mpr (by linarith)
  · rw [u2, e2]
  · exact Int.floor_le_floor (by linarith)

/-- C4 (witness): instantiation at start time 1 and request times 2 and
4. -/
theorem health_uptime_floor_monotone_witness :
    (1 : ℚ) ≤ 2 ∧ (2 : ℚ) ≤ 4 ∧
    ((do_GET ⟨1⟩ ⟨2, "A"⟩ "/health").status = 200 ∧
     (do_GET ⟨1⟩ ⟨2, "A"⟩ "/health").jsonField "status" =
       some (.str "healthy") ∧
     (do_GET ⟨1⟩ ⟨2, "A"⟩ "/health").jsonField "version" =
       some (.str "1.0.0") ∧
     (do_GET ⟨1⟩ ⟨2, "A"⟩ "/health").jsonField "uptime" =
       some (.int ⌊(2 : ℚ) - (1 : ℚ)⌋) ∧
     0 ≤ ⌊(2 : ℚ) - (1 : ℚ)⌋ ∧
     (do_GET ⟨1⟩ ⟨4, "B"⟩ "/health").jsonField "uptime" =
       some (.int ⌊(4 : ℚ) - (1 : ℚ)⌋) ∧
     ⌊(2 : ℚ) - (1 : ℚ)⌋ ≤ ⌊(4 : ℚ) - (1 : ℚ)⌋) :=
  ⟨by norm_num, by norm_num,
    health_uptime_floor_monotone ⟨1⟩ ⟨2, "A"⟩ ⟨4, "B"⟩ (by norm_num)
      (by norm_num)⟩

/-- Helper for C5: whatever the header and body, the `/upgrade` branch
never produces the fall-through 404 response (it answers 200 or raises). -/
theorem upgrade_outcome_never_not_found (st : ServerState) (c : Clock)
    (clh : Option String) (b : String) :
    do_POST st c ⟨"/upgrade", clh, b⟩ ≠ .response notFoundResponse := by
  intro h
  simp only [do_POST] at h
  rw [if_neg (by decide), if_pos trivial] at h
  rcases clh with _ | s
  · simp at h
  · cases hn : pyIntOfStr s with
    | none =>
      simp only [hn] at h
      simp at h
    | some n =>
      simp only [hn] at h
      cases hj : json_loads (pyRead n b) with
      | none =>
        simp only [hj] at h
        simp at h
      | some d =>
        simp only [hj] at h
        cases d <;> simp [notFoundResponse] at h

/-- C5: routing matches the path by exact string equality: the GET
response is the fall-through 404 exactly when the path is none of the
four GET table entries, the POST outcome is the 404 response exactly
when the path is neither POST table entry, and in particular a query
string, a trailing slash, an extension, or a truncation of `/health`
each produce the 404 response. -/
theorem routing_exact_match (st : ServerState) (c : Clock) (p : String)
    (clh : Option String) (b : String) :
    (do_GET st c p = notFoundResponse ↔ p ∉ getPaths) ∧
    (do_POST st c ⟨p, clh, b⟩ = .response notFoundResponse ↔ p ∉ postPaths) ∧
    do_GET st c "/health?x=1" = notFoundResponse ∧
    do_GET st c "/health/" = notFoundResponse ∧
    do_GET st c "/healthz" = notFoundResponse ∧
    do_GET st c "/heal" = notFoundResponse := by
  refine ⟨?_, ?_, rfl, rfl, rfl, rfl⟩
  · by_cases h1 : p = "/health"
    · subst h1
      exact iff_of_false (by simp [do_GET, notFoundResponse])
        (by simp [getPaths])
    · by_cases h2 : p = "/version"
      · subst h2
        exact iff_of_false (by simp [do_GET, notFoundResponse])
          (by simp [getPaths])
      · by_cases h3 : p = "/info"
        · subst h3
          exact iff_of_false (by simp [do_GET, notFoundResponse])
            (by simp [getPaths])
        · by_cases h4 : p = "/metrics"
          · subst h4
            exact iff_of_false (by simp [do_GET, notFoundResponse])
              (by simp [getPaths])
          · simp [do_GET, notFoundResponse, getPaths, h1, h2, h3, h4]
  · by_cases h1 : p = "/restart"
    · subst h1
      exact iff_of_false (by simp [do_POST, notFoundResponse])
        (by simp [postPaths])
    · by_cases h2 : p = "/upgrade"
      · subst h2
        exact iff_of_false (upgrade_outcome_never_not_found st c clh b)
          (by simp [postPaths])
      · simp [do_POST, notFoundResponse, postPaths, h1, h2]

/-- C6: a POST to `/upgrade` carrying the body with `version` string
`2.0.0` and the matching `Content-Length` of 19 is answered 200 with
`Content-type: application/json`, `status` field `success`, and message
`Upgrade to version 2.0.0 initiated`. -/
theorem upgrade_version_2_0_0 (st : ServerState) (c : Clock) :
    do_POST st c ⟨"/upgrade", some "19", versionBody "2.0.0"⟩ =
      .response
        { status := 200
          contentType := "application/json"
          body := .jsonBody (.obj [
            ("status", .str "success"),
            ("message", .str "Upgrade to version 2.0.0 initiated"),
            ("timestamp", .str c.iso)]) } := rfl

/-- C7: every GET of `/version` is answered 200 with `current` field
`1.0.0` and `available` field exactly the three-element sequence
`1.0.1`, `1.1.0`, `2.0.0` in that order. -/
theorem version_endpoint_fields (st : ServerState) (c : Clock) :
    (do_GET st c "/version").status = 200 ∧
    (do_GET st c "/version").jsonField "current" = some (.str "1.0.0") ∧
    (do_GET st c "/version").jsonField "available" =
      some (.arr [.str "1.0.1", .str "1.1.0", .str "2.0.0"]) :=
  ⟨rfl, rfl, rfl⟩

/-- C8: GET `/metrics` is stateless and idempotent: whatever the server
state and clock, the response is the one fixed 200 JSON body (the
decimals 15.2, 45.7 and 23.1 appear as `num 152 1`, `num 457 1` and
`num 231 1`, the exact values of the literals), and any two runs of the
handler produce identical responses. -/
theorem metrics_stateless_constant (st : ServerState) (c : Clock)
    (st2 : ServerState) (c2 : Clock) :
    do_GET st c "/metrics" =
      { status := 200
        contentType := "application/json"
        body := .jsonBody (.obj [
          ("cpu_usage", .num 152 1),
          ("memory_usage", .num 457 1),
          ("disk_usage", .num 231 1),
          ("active_connections", .int 3)]) } ∧
    do_GET st c "/metrics" = do_GET st2 c2 "/metrics" :=
  ⟨rfl, rfl⟩

/-- C9: handling any request returns the module state unchanged: no
statement in `do_GET` or `do_POST` assigns `server_start_time`, which is
set once in `__main__` (here `initialState`) and only read. -/
theorem handle_preserves_server_start_time (st : ServerState) (c : Clock)
    (r : Request) :
    (handle st c r).2 = st ∧
    ∀ t : ℚ, (handle (initialState t) c r).2 = initialState t :=
  ⟨rfl, fun _ => rfl⟩

/-- C10: whatever JSON value sits under the `version` key of the parsed
object body, its Python `str` rendering is interpolated into the 200
response message; no type check restricts the field to strings. -/
theorem upgrade_version_field_any_value (st : ServerState) (c : Clock)
    (clh : String) (n : Int) (b : String) (kvs : List (String × Json))
    (v : Json)
    (hn : pyIntOfStr clh = some n)
    (hj : json_loads (pyRead n b) = some (.obj kvs))
    (hv : List.lookup "version" kvs = some v) :
    do_POST st c ⟨"/upgrade", some clh, b⟩ =
      .response
        { status := 200
          contentType := "application/json"
          body := .jsonBody (.obj [
            ("status", .str "success"),
            ("message",
              .str ("Upgrade to version " ++ pyStr v ++ " initiated")),
            ("timestamp", .str c.iso)]) } := by
  simp only [do_POST]
  rw [if_neg (by decide), if_pos trivial, hn]
  simp only [hj, hv]

/-- C10 (witness): instantiation at the body whose `version` field is
the JSON integer `2`, rendered as `2` in the message. -/
theorem upgrade_version_field_any_value_witness :
    pyIntOfStr "14" = some 14 ∧
    json_loads (pyRead 14 versionInt2Body) =
      some (.obj [("version", .int 2)]) ∧
    List.lookup "version" [("version", Json.int 2)] = some (Json.int 2) ∧
    do_POST sampleState sampleClock ⟨"/upgrade", some "14", versionInt2Body⟩ =
      .response
        { status := 200
          contentType := "application/json"
          body := .jsonBody (.obj [
            ("status", .str "success"),
            ("message", .str "Upgrade to version 2 initiated"),
            ("timestamp", .str sampleClock.iso)]) } :=
  ⟨rfl, rfl, rfl,
    upgrade_version_field_any_value sampleState sampleClock "14" 14
      versionInt2Body [("version", Json.int 2)] (Json.int 2) rfl rfl rfl⟩

end HealthServer
